import Mathlib

/-!
# Verification of the AssistGen gateway (`llm_backend/main.py`)

Shallow embedding of the streaming-dispatch and ingestion-orchestration layer
of the FastAPI gateway in `src/fufan_deepseek_agent/llm_backend/main.py`:
the `/chat`, `/reason`, `/search` routes, the `/upload` ingestion coordinator,
and the data they manipulate.  Pure Python fragments become Lean functions;
exceptions become `Except`; the request-scoped effects a route may perform
(backend construction, file read/write, the indexing collaborator) are passed
in explicitly so that each route handler is a total function from its inputs
and its environment to its observable outcome (HTTP response, log records,
file-system update).
-/

namespace AssistGen

/-! ## JSON-ish dictionary values

The upload route builds Python `dict`s whose values are strings and ints
(`file_info` at main.py:169–175, the merged `result` at main.py:184, and the
error body at main.py:197).  We model such a dict as an insertion-ordered
association list over a small value type. -/

/-- A Python dict value occurring in the upload flow: a string or an int. -/
inductive Value where
  | str (s : String)
  | int (n : Nat)
deriving DecidableEq, Repr

/-- An insertion-ordered Python dict with string keys. -/
abbrev Dict := List (String × Value)

/-- Python `d[k]` / `k in d` as a total lookup: the value at the first
occurrence of key `k`, if any. -/
def pyLookup (d : Dict) (k : String) : Option Value :=
  match d with
  | [] => none
  | (k', v) :: rest => if k' = k then some v else pyLookup rest k

/-- Python `d[k] = v` on an insertion-ordered dict (whose keys are distinct):
overwrite in place at the first occurrence of the key, else append. -/
def dictInsert (d : Dict) (k : String) (v : Value) : Dict :=
  match d with
  | [] => [(k, v)]
  | (k', v') :: rest =>
    if k' = k then (k, v) :: rest else (k', v') :: dictInsert rest k v

/-- Python `{**a, **b}` (main.py:184): start from `a` and set each binding of
`b` in order, so on a key collision the value from `b` wins. -/
def pyMerge (a b : Dict) : Dict :=
  b.foldl (fun acc p => dictInsert acc p.1 p.2) a

/-! ## Timestamps and the stored-filename scheme

`upload_file` derives the stored filename as
`datetime.now().strftime("%Y%m%d_%H%M%S") + "_" + file.filename`
(main.py:153–154).  `datetime.now()` is a civil timestamp at seconds
granularity; we embed it as a record of calendar fields. -/

/-- A civil timestamp at seconds granularity, as returned by
`datetime.now()` and consumed by `strftime("%Y%m%d_%H%M%S")`. -/
structure DateTime where
  year : Nat
  month : Nat
  day : Nat
  hour : Nat
  minute : Nat
  second : Nat
deriving DecidableEq, Repr

/-- Field ranges of a real `datetime` value (year bounded as in Python's
`datetime`, whose year runs from 1 to 9999; `%Y` zero-pads to four digits). -/
def DateTime.Valid (t : DateTime) : Prop :=
  1 ≤ t.year ∧ t.year ≤ 9999 ∧ 1 ≤ t.month ∧ t.month ≤ 12 ∧
    1 ≤ t.day ∧ t.day ≤ 31 ∧ t.hour ≤ 23 ∧ t.minute ≤ 59 ∧ t.second ≤ 59

instance (t : DateTime) : Decidable t.Valid := by
  unfold DateTime.Valid; infer_instance

/-- Two decimal digits, zero-padded (strftime `%m`, `%d`, `%H`, `%M`, `%S`). -/
def pad2 (n : Nat) : List Char :=
  [Nat.digitChar (n / 10 % 10), Nat.digitChar (n % 10)]

/-- Four decimal digits, zero-padded (strftime `%Y` on years up to 9999). -/
def pad4 (n : Nat) : List Char :=
  [Nat.digitChar (n / 1000 % 10), Nat.digitChar (n / 100 % 10),
   Nat.digitChar (n / 10 % 10), Nat.digitChar (n % 10)]

/-- `t.strftime("%Y%m%d_%H%M%S")` (main.py:153). -/
def strftimeYmdHMS (t : DateTime) : String :=
  ⟨pad4 t.year ++ pad2 t.month ++ pad2 t.day ++ ['_'] ++
    pad2 t.hour ++ pad2 t.minute ++ pad2 t.second⟩

/-- The stored filename `f"{timestamp}_{file.filename}"` (main.py:154). -/
def uploadFilename (t : DateTime) (originalName : String) : String :=
  strftimeYmdHMS t ++ "_" ++ originalName

/-- `str(UPLOAD_DIR / filename).replace('\\', '/')` (main.py:155,174) with
`UPLOAD_DIR = Path("uploads")`. -/
def uploadPath (t : DateTime) (originalName : String) : String :=
  "uploads/" ++ uploadFilename t originalName

/-! ## Messages and streams

A request message is a Python `Dict[str, str]` (the pydantic models at
main.py:59–70 validate only that shape, not which keys are present), so we
keep it as an association list and model subscripting `m["content"]` as a
lookup that can miss (Python `KeyError`). -/

/-- One element of a request's `messages` list: a `Dict[str, str]`. -/
abbrev Message := List (String × String)

/-- String-dict lookup, `m[k]` (a `none` is Python's `KeyError`). -/
def msgLookup (m : Message) (k : String) : Option String :=
  match m with
  | [] => none
  | (k', v) :: rest => if k' = k then some v else msgLookup rest k

/-- How a backend token sequence ends: clean exhaustion or a raised error. -/
inductive StreamEnd where
  | done
  | error (msg : String)
deriving DecidableEq, Repr

/-- A backend-produced lazy token sequence (§4.1 of the spec): the finite list
of text fragments it yields, in order, and how it terminates. -/
structure TokenStream where
  tokens : List String
  ending : StreamEnd
deriving DecidableEq, Repr

/-- Modelled from the spec: the Stream Adapter (§4.3).  The wrapping of a
token sequence into SSE frames is performed by `StreamingResponse` /
the services' `generate_stream` (repository code under `app/services/`, not
under `src/`); main.py:91–94 only wires them together.  Per the spec the
adapter emits one data frame per token in source order and then a terminal
signal: a clean close for normal exhaustion, and for a mid-stream error a
terminal error indication (error frame or connection close) distinct from a
clean close. -/
inductive SSEFrame where
  | data (tok : String)
  | close
  | errorSignal (msg : String)
deriving DecidableEq, Repr

/-- Modelled from the spec: the adapter's frame-by-frame consumption of a
backend sequence (§4.3): forward each token as a data frame, then emit the
terminal signal corresponding to how the sequence ended. -/
def sseAdapt : List String → StreamEnd → List SSEFrame
  | [], .done => [.close]
  | [], .error m => [.errorSignal m]
  | tok :: rest, e => .data tok :: sseAdapt rest e

/-! ## Chat-like routes

Each handler body is a `try` block whose failure points are explicit, with
`except Exception as e: raise HTTPException(status_code=500, detail=str(e))`.
Backend construction (`LLMFactory.create_chat_service()` etc., repository
code not under `src/`) is passed in as an `Except`: `.error e` is the
constructor raising, `.ok svc` is the constructed service, itself a function
from the handler's argument to the token stream it would produce. -/

/-- The observable HTTP response of a chat-like route: either a streamed
`StreamingResponse(..., media_type="text/event-stream")` or a single
non-streamed `HTTPException` response. -/
inductive ChatResponse where
  | stream (s : TokenStream)
  | httpError (status : Nat) (detail : String)
deriving DecidableEq, Repr

/-- The outcome of one chat-like request: whether a backend instance was
constructed (the construction side effect) and the response. -/
structure RouteOutcome where
  backendConstructed : Bool
  response : ChatResponse
deriving DecidableEq, Repr

/-- Modelled from the spec: `log_structured` (`app/core/logger.py`, not under
`src/`) is a fire-and-forget structured-logging sink; per §6/§7 a failure of
its internal write is swallowed inside the sink, so the call always returns
normally.  `sinkFails` records whether the internal write failed. -/
def logStructured (_sinkFails : Bool) (_event : String) (_payload : Dict) : Unit :=
  ()

/-- The Python message preview
`request.messages[-1]["content"][:100] + "..."` (main.py:86): raises
`IndexError` on an empty list and `KeyError` on a missing key. -/
def lastMessagePreview (messages : List Message) : Except String String :=
  match messages.getLast? with
  | none => .error "list index out of range"
  | some m =>
    match msgLookup m "content" with
    | none => .error "KeyError: content"
    | some c => .ok (String.mk (c.toList.take 100) ++ "...")

/-- `chat_endpoint` (main.py:76–98):
`logger.info`, construct the chat service via the factory, evaluate the
`log_structured` payload (whose `messages[-1]` subscript can raise), then
return the streaming response; any exception becomes
`HTTPException(500, str(e))`. -/
def chat_endpoint (sinkFails : Bool) (factory : Except String (List Message → TokenStream))
    (messages : List Message) : RouteOutcome :=
  match factory with
  | .error e => ⟨false, .httpError 500 e⟩
  | .ok chat_service =>
    match lastMessagePreview messages with
    | .error e => ⟨true, .httpError 500 e⟩
    | .ok preview =>
      let _ := logStructured sinkFails "chat_request"
        [("message_count", .int messages.length), ("last_message", .str preview)]
      ⟨true, .stream (chat_service messages)⟩

/-- `reason_endpoint` (main.py:104–123): identical control flow to
`chat_endpoint` with the reasoner service in place of the chat service. -/
def reason_endpoint (sinkFails : Bool) (factory : Except String (List Message → TokenStream))
    (messages : List Message) : RouteOutcome :=
  match factory with
  | .error e => ⟨false, .httpError 500 e⟩
  | .ok reasoner =>
    match lastMessagePreview messages with
    | .error e => ⟨true, .httpError 500 e⟩
    | .ok preview =>
      let _ := logStructured sinkFails "reason_request"
        [("message_count", .int messages.length), ("last_message", .str preview)]
      ⟨true, .stream (reasoner messages)⟩

/-- `search_endpoint` (main.py:129–140): construct `SearchService()`, then
stream `search_service.generate_stream(request.messages[0]["content"])`;
`messages[0]` raises `IndexError` on an empty list, the `"content"` subscript
raises `KeyError` if absent, and any exception becomes
`HTTPException(500, str(e))`. -/
def search_endpoint (construct : Except String (String → TokenStream))
    (messages : List Message) : RouteOutcome :=
  match construct with
  | .error e => ⟨false, .httpError 500 e⟩
  | .ok search_service =>
    match messages with
    | [] => ⟨true, .httpError 500 "list index out of range"⟩
    | m :: _ =>
      match msgLookup m "content" with
      | none => ⟨true, .httpError 500 "KeyError: content"⟩
      | some q => ⟨true, .stream (search_service q)⟩

/-! ## The upload route (ingestion coordinator)

`upload_file` (main.py:146–199) is a `try` block whose failure points are the
awaited body read (main.py:161), the file write (main.py:162–163) and the
indexing collaborator call (main.py:180–181); `except Exception as e` logs the
failure and returns `{"error": str(e)}`, which FastAPI serializes with the
route's default status 200 (as it does the success dict).  The collaborator
(`RAGService.process_file`, repository code not under `src/`) is passed in as
a function of `file_info`; the file system is an explicit map from path
strings to byte strings. -/

/-- The multipart `UploadFile` argument: its client-declared name and MIME
type.  Its byte content arrives via the (failable) `await file.read()`,
modelled in `UploadEnv`. -/
structure FileUpload where
  original_name : String
  content_type : String
deriving DecidableEq, Repr

/-- The request-scoped effects of one upload: the outcome of
`await file.read()`, of the `open(...)/f.write(...)` call, and of
`await rag_service.process_file(file_info)` (which receives `file_info` and
either raises or returns its result dict). -/
structure UploadEnv where
  readResult : Except String (List UInt8)
  writeResult : Except String Unit
  ragResult : Dict → Except String Dict

/-- The HTTP payload of the upload route: a JSON body with its status code,
or the SSE-framed string the dead trailing `return` (main.py:199) would
produce. -/
inductive UploadResponse where
  | json (status : Nat) (body : Dict)
  | sse (s : String)
deriving DecidableEq, Repr

/-- A minimal rendering of a dict for the `f"data: {result}"` interpolation
of the dead trailing statement. -/
def dictRepr (d : Dict) : String :=
  "\x7b" ++ String.intercalate ", "
    (d.map (fun p =>
      match p.2 with
      | .str s => p.1 ++ ": " ++ s
      | .int n => p.1 ++ ": " ++ toString n)) ++ "\x7d"

/-- What the trailing statement `return f"data: {result}\n\n"` (main.py:199),
placed after both the `try` return and the `except` return, would produce if
control ever reached it. -/
def uploadTrailingReturn (result : Dict) : UploadResponse :=
  .sse ("data: " ++ dictRepr result ++ "\n\n")

/-- The observable outcome of one upload request: the log records written,
the HTTP response, and the file system after the request. -/
structure UploadOutcome where
  logs : List String
  response : UploadResponse
  fs : String → Option (List UInt8)

/-- The `file_info` dict derived at main.py:169–175 from the already-read
bytes and headers: stored filename, client name, size, declared MIME type,
and storage path. -/
def fileInfoOf (file : FileUpload) (t : DateTime) (content : List UInt8) : Dict :=
  [("filename", .str (uploadFilename t file.original_name)),
   ("original_name", .str file.original_name),
   ("size", .int content.length),
   ("type", .str file.content_type),
   ("path", .str (uploadPath t file.original_name))]

/-- `upload_file` (main.py:146–199).  The filename/path derivation
(main.py:153–155), metadata derivation (main.py:166–175) and the merge
`{**file_info, **rag_result}` (main.py:184) are pure; the read, write and
collaborator call each may raise, and any raised exception is caught,
logged as `Upload failed: ...`, and turned into the `{"error": str(e)}`
body with status 200. -/
def upload_file (sinkFails : Bool) (env : UploadEnv) (file : FileUpload)
    (t : DateTime) (fs : String → Option (List UInt8)) : UploadOutcome :=
  let infoLog := "info:Uploading file: " ++ file.original_name
  let filename := uploadFilename t file.original_name
  let file_path := "uploads/" ++ filename
  match env.readResult with
  | .error e =>
    ⟨[infoLog, "error:Upload failed: " ++ e], .json 200 [("error", .str e)], fs⟩
  | .ok content =>
    match env.writeResult with
    | .error e =>
      ⟨[infoLog, "error:Upload failed: " ++ e], .json 200 [("error", .str e)], fs⟩
    | .ok () =>
      let fs' := fun p => if p = file_path then some content else fs p
      let file_info : Dict := fileInfoOf file t content
      match env.ragResult file_info with
      | .error e =>
        ⟨[infoLog, "error:Upload failed: " ++ e], .json 200 [("error", .str e)], fs'⟩
      | .ok rag_result =>
        let result := pyMerge file_info rag_result
        let _ := logStructured sinkFails "file_upload"
          [("filename", .str file.original_name),
           ("size", .int content.length),
           ("type", .str file.content_type)]
        ⟨[infoLog], .json 200 result, fs'⟩

/-- Modelled from the spec: the indexing collaborator's result
(`RAGService.process_file`, not under `src/`).  Per §3 the `IngestionResult`
is collaborator-supplied index metadata — e.g. `index_id` and a chunk
count — which is merged with the `UploadedFile` fields. -/
def specIngestionResult (index_id : String) (chunk_count : Nat) : Dict :=
  [("index_id", .str index_id), ("chunk_count", .int chunk_count)]

/-! ## Helper lemmas -/

/-- `Nat.digitChar` is injective on decimal digits. -/
theorem digitChar_inj_of_lt {a b : Nat} (ha : a < 10) (hb : b < 10)
    (h : Nat.digitChar a = Nat.digitChar b) : a = b := by
  interval_cases a <;> interval_cases b <;> revert h <;> decide

/-- `strftime("%Y%m%d_%H%M%S")` is injective on valid timestamps: the output
is a fixed-width zero-padded decimal rendering of every field. -/
theorem strftimeYmdHMS_inj {t₁ t₂ : DateTime} (h₁ : t₁.Valid) (h₂ : t₂.Valid)
    (h : strftimeYmdHMS t₁ = strftimeYmdHMS t₂) : t₁ = t₂ := by
  obtain ⟨y₁, mo₁, d₁, hr₁, mi₁, s₁⟩ := t₁
  obtain ⟨y₂, mo₂, d₂, hr₂, mi₂, s₂⟩ := t₂
  simp only [DateTime.Valid] at h₁ h₂
  obtain ⟨-, hy₁, -, hmo₁, -, hd₁, hhr₁, hmi₁, hs₁⟩ := h₁
  obtain ⟨-, hy₂, -, hmo₂, -, hd₂, hhr₂, hmi₂, hs₂⟩ := h₂
  simp only [strftimeYmdHMS, pad4, pad2, List.cons_append, List.nil_append,
    String.ext_iff, List.cons.injEq, and_true] at h
  obtain ⟨q1, q2, q3, q4, q5, q6, q7, q8, -, q9, q10, q11, q12, q13, q14⟩ := h
  have d10 : (0:Nat) < 10 := by norm_num
  have g1 := digitChar_inj_of_lt (Nat.mod_lt _ d10) (Nat.mod_lt _ d10) q1
  have g2 := digitChar_inj_of_lt (Nat.mod_lt _ d10) (Nat.mod_lt _ d10) q2
  have g3 := digitChar_inj_of_lt (Nat.mod_lt _ d10) (Nat.mod_lt _ d10) q3
  have g4 := digitChar_inj_of_lt (Nat.mod_lt _ d10) (Nat.mod_lt _ d10) q4
  have g5 := digitChar_inj_of_lt (Nat.mod_lt _ d10) (Nat.mod_lt _ d10) q5
  have g6 := digitChar_inj_of_lt (Nat.mod_lt _ d10) (Nat.mod_lt _ d10) q6
  have g7 := digitChar_inj_of_lt (Nat.mod_lt _ d10) (Nat.mod_lt _ d10) q7
  have g8 := digitChar_inj_of_lt (Nat.mod_lt _ d10) (Nat.mod_lt _ d10) q8
  have g9 := digitChar_inj_of_lt (Nat.mod_lt _ d10) (Nat.mod_lt _ d10) q9
  have g10 := digitChar_inj_of_lt (Nat.mod_lt _ d10) (Nat.mod_lt _ d10) q10
  have g11 := digitChar_inj_of_lt (Nat.mod_lt _ d10) (Nat.mod_lt _ d10) q11
  have g12 := digitChar_inj_of_lt (Nat.mod_lt _ d10) (Nat.mod_lt _ d10) q12
  have g13 := digitChar_inj_of_lt (Nat.mod_lt _ d10) (Nat.mod_lt _ d10) q13
  have g14 := digitChar_inj_of_lt (Nat.mod_lt _ d10) (Nat.mod_lt _ d10) q14
  simp only [DateTime.mk.injEq]
  refine ⟨by omega, by omega, by omega, by omega, by omega, by omega⟩

/-- The timestamp prefix of a stored filename can be cancelled against the
common `"_" ++ originalName` suffix. -/
theorem uploadFilename_strftime_eq {t₁ t₂ : DateTime} {name : String}
    (h : uploadFilename t₁ name = uploadFilename t₂ name) :
    strftimeYmdHMS t₁ = strftimeYmdHMS t₂ := by
  have hd := congrArg String.data h
  simp only [uploadFilename, String.data_append, List.append_assoc] at hd
  exact String.ext (List.append_cancel_right hd)

/-- `dictInsert` at one key leaves lookups of other keys unchanged. -/
theorem pyLookup_dictInsert_of_ne {d : Dict} {k' k : String} {v : Value}
    (hne : k' ≠ k) :
    pyLookup (dictInsert d k' v) k = pyLookup d k := by
  induction d with
  | nil => simp [dictInsert, pyLookup, hne]
  | cons p rest ih =>
    obtain ⟨k₀, v₀⟩ := p
    by_cases hk₀ : k₀ = k'
    · subst hk₀
      simp [dictInsert, pyLookup, hne]
    · by_cases hk : k₀ = k
      · subst hk
        simp [dictInsert, pyLookup, hk₀]
      · simp [dictInsert, pyLookup, hk₀, hk, ih]

/-- A key absent from `b` (its Python lookup misses) looks up through a
`{**a, **b}` merge to its binding in `a`. -/
theorem pyLookup_pyMerge_of_none {a b : Dict} {k : String}
    (hb : pyLookup b k = none) :
    pyLookup (pyMerge a b) k = pyLookup a k := by
  induction b generalizing a with
  | nil => rfl
  | cons p rest ih =>
    obtain ⟨k', v⟩ := p
    have hne : k' ≠ k := by
      intro hkk
      simp [pyLookup, hkk] at hb
    have hrest : pyLookup rest k = none := by
      simpa [pyLookup, if_neg hne] using hb
    calc pyLookup (pyMerge a ((k', v) :: rest)) k
        = pyLookup (pyMerge (dictInsert a k' v) rest) k := rfl
      _ = pyLookup (dictInsert a k' v) k := ih hrest
      _ = pyLookup a k := pyLookup_dictInsert_of_ne hne

/-- The adapter on a cleanly terminating sequence: every token as a data
frame, then a clean close. -/
theorem sseAdapt_done (ts : List String) :
    sseAdapt ts .done = ts.map SSEFrame.data ++ [.close] := by
  induction ts with
  | nil => rfl
  | cons t rest ih => simp [sseAdapt, ih]

/-- The adapter on a sequence that raises after its tokens: every token as a
data frame, then the terminal error signal. -/
theorem sseAdapt_error (ts : List String) (m : String) :
    sseAdapt ts (.error m) = ts.map SSEFrame.data ++ [.errorSignal m] := by
  induction ts with
  | nil => rfl
  | cons t rest ih => simp [sseAdapt, ih]

/-! ## Claims -/

/-- C1: claimed — every chat-like request with an empty message sequence is
rejected with a 4xx before any backend is constructed.  The code does the
opposite: with `messages = []` the `/chat`, `/reason` and `/search` handlers
first construct their backend service, then raise `IndexError` evaluating
`messages[-1]` / `messages[0]`, which the generic handler converts into an
HTTP 500 — a 5xx after the backend-construction side effect has occurred. -/
theorem chat_like_empty_messages_constructs_backend_then_500 (sf : Bool)
    (svc : List Message → TokenStream) (sSvc : String → TokenStream) :
    chat_endpoint sf (.ok svc) [] =
      ⟨true, .httpError 500 "list index out of range"⟩ ∧
    reason_endpoint sf (.ok svc) [] =
      ⟨true, .httpError 500 "list index out of range"⟩ ∧
    search_endpoint (.ok sSvc) [] =
      ⟨true, .httpError 500 "list index out of range"⟩ :=
  ⟨rfl, rfl, rfl⟩

/-- C2: a backend sequence that raises after emitting its tokens is adapted
to exactly those tokens as data frames, in order, followed by a terminal
error signal; no adaptation of an erroring sequence coincides with the
adaptation of any cleanly completing sequence. -/
theorem sse_adapter_forwards_tokens_then_error_signal (ts : List String)
    (m : String) :
    sseAdapt ts (.error m) = ts.map SSEFrame.data ++ [.errorSignal m] ∧
    ∀ ts' : List String, sseAdapt ts (.error m) ≠ sseAdapt ts' .done := by
  refine ⟨sseAdapt_error ts m, ?_⟩
  intro ts' h
  rw [sseAdapt_error, sseAdapt_done] at h
  have hl := congrArg List.getLast? h
  simp [List.getLast?_append] at hl

/-- C3: if the body read, the file write, or the indexing collaborator call
of the upload flow raises, `upload_file` catches the failure, logs
`Upload failed: ...`, and returns the `{"error": str(e)}` JSON body with
HTTP 200 rather than propagating. -/
theorem upload_failure_caught_logged_200 (sf : Bool) (env : UploadEnv)
    (file : FileUpload) (t : DateTime) (fs : String → Option (List UInt8))
    (e : String)
    (h : env.readResult = .error e ∨
         (∃ c, env.readResult = .ok c ∧ env.writeResult = .error e) ∨
         (∃ c, env.readResult = .ok c ∧ env.writeResult = .ok () ∧
            env.ragResult (fileInfoOf file t c) = .error e)) :
    (upload_file sf env file t fs).response = .json 200 [("error", .str e)] ∧
    ("error:Upload failed: " ++ e) ∈ (upload_file sf env file t fs).logs := by
  obtain ⟨rd, wr, rg⟩ := env
  rcases h with h | ⟨c, hc, hw⟩ | ⟨c, hc, hw, hr⟩
  · subst h
    constructor
    · rfl
    · simp [upload_file]
  · cases hc
    cases hw
    constructor
    · rfl
    · simp [upload_file]
  · cases hc
    cases hw
    have hr' : rg (fileInfoOf file t c) = .error e := hr
    constructor
    · simp [upload_file, hr']
    · simp [upload_file, hr']

/-- Witness for C3 at a concrete failing read. -/
theorem upload_failure_caught_logged_200_witness :
    (upload_file false ⟨.error "disk full", .ok (), fun _ => .ok []⟩
        ⟨"a.txt", "text/plain"⟩ ⟨2025, 10, 12, 9, 30, 0⟩ (fun _ => none)).response =
      .json 200 [("error", .str "disk full")] ∧
    ("error:Upload failed: " ++ "disk full") ∈
      (upload_file false ⟨.error "disk full", .ok (), fun _ => .ok []⟩
        ⟨"a.txt", "text/plain"⟩ ⟨2025, 10, 12, 9, 30, 0⟩ (fun _ => none)).logs :=
  upload_failure_caught_logged_200 false
    ⟨.error "disk full", .ok (), fun _ => .ok []⟩ ⟨"a.txt", "text/plain"⟩
    ⟨2025, 10, 12, 9, 30, 0⟩ (fun _ => none) "disk full" (Or.inl rfl)

/-- C4 counterexample: the merge `{**file_info, **rag_result}` is
right-biased, so an ingestion result that binds `"filename"` overwrites the
UploadedFile's stored filename in the merged response — the claim's "never
overwritten on key collision" is false at this input. -/
theorem upload_merge_identity_overwritten_cex :
    (upload_file false
        ⟨.ok [65], .ok (), fun _ => .ok [("filename", .str "INJECTED")]⟩
        ⟨"a.txt", "text/plain"⟩ ⟨2025, 10, 12, 9, 30, 0⟩ (fun _ => none)).response =
      .json 200 [("filename", .str "INJECTED"),
                 ("original_name", .str "a.txt"),
                 ("size", .int 1),
                 ("type", .str "text/plain"),
                 ("path", .str "uploads/20251012_093000_a.txt")] ∧
    pyLookup (fileInfoOf ⟨"a.txt", "text/plain"⟩ ⟨2025, 10, 12, 9, 30, 0⟩ [65])
        "filename" = some (.str "20251012_093000_a.txt") ∧
    Value.str "INJECTED" ≠ .str "20251012_093000_a.txt" :=
  ⟨rfl, rfl, by decide⟩

/-- C4 (amended): on key collision the ingestion-result fields overwrite the
UploadedFile fields; the merged object's `filename` and `path` equal those of
the UploadedFile record exactly when the ingestion result binds neither key. -/
theorem upload_merge_preserves_identity_when_no_collision (sf : Bool)
    (content : List UInt8) (rag : Dict) (file : FileUpload) (t : DateTime)
    (fs : String → Option (List UInt8))
    (hf : pyLookup rag "filename" = none) (hp : pyLookup rag "path" = none) :
    (upload_file sf ⟨.ok content, .ok (), fun _ => .ok rag⟩ file t fs).response =
      .json 200 (pyMerge (fileInfoOf file t content) rag) ∧
    pyLookup (pyMerge (fileInfoOf file t content) rag) "filename" =
      some (.str (uploadFilename t file.original_name)) ∧
    pyLookup (pyMerge (fileInfoOf file t content) rag) "path" =
      some (.str (uploadPath t file.original_name)) := by
  refine ⟨rfl, ?_, ?_⟩
  · rw [pyLookup_pyMerge_of_none hf]
    simp [fileInfoOf, pyLookup]
  · rw [pyLookup_pyMerge_of_none hp]
    simp [fileInfoOf, pyLookup]

/-- Witness for the amended C4 at a concrete collision-free ingestion
result. -/
theorem upload_merge_preserves_identity_when_no_collision_witness :
    (upload_file false
        ⟨.ok [65], .ok (), fun _ => .ok [("index_id", .str "idx-1")]⟩
        ⟨"a.txt", "text/plain"⟩ ⟨2025, 10, 12, 9, 30, 0⟩ (fun _ => none)).response =
      .json 200 (pyMerge
        (fileInfoOf ⟨"a.txt", "text/plain"⟩ ⟨2025, 10, 12, 9, 30, 0⟩ [65])
        [("index_id", .str "idx-1")]) ∧
    pyLookup (pyMerge
        (fileInfoOf ⟨"a.txt", "text/plain"⟩ ⟨2025, 10, 12, 9, 30, 0⟩ [65])
        [("index_id", .str "idx-1")]) "filename" =
      some (.str (uploadFilename ⟨2025, 10, 12, 9, 30, 0⟩ "a.txt")) ∧
    pyLookup (pyMerge
        (fileInfoOf ⟨"a.txt", "text/plain"⟩ ⟨2025, 10, 12, 9, 30, 0⟩ [65])
        [("index_id", .str "idx-1")]) "path" =
      some (.str (uploadPath ⟨2025, 10, 12, 9, 30, 0⟩ "a.txt")) :=
  upload_merge_preserves_identity_when_no_collision false [65]
    [("index_id", .str "idx-1")] ⟨"a.txt", "text/plain"⟩
    ⟨2025, 10, 12, 9, 30, 0⟩ (fun _ => none) (by decide) (by decide)

/-- C5: the stored filename is `{strftime("%Y%m%d_%H%M%S")}_{original_name}`
at seconds granularity, so for two uploads of the same original name the
stored filenames coincide exactly when the seconds-granularity timestamps
coincide: timestamps more than one second apart are distinct civil
timestamps and give distinct filenames, while two uploads within the same
second share a timestamp and collide. -/
theorem upload_filename_collides_iff_same_second (t₁ t₂ : DateTime)
    (name : String) (h₁ : t₁.Valid) (h₂ : t₂.Valid) :
    uploadFilename t₁ name = uploadFilename t₂ name ↔ t₁ = t₂ := by
  constructor
  · intro h
    exact strftimeYmdHMS_inj h₁ h₂ (uploadFilename_strftime_eq h)
  · intro h
    rw [h]

/-- Witness for C5 at two concrete timestamps two seconds apart. -/
theorem upload_filename_collides_iff_same_second_witness :
    (uploadFilename ⟨2025, 10, 12, 9, 30, 0⟩ "report.pdf" =
        uploadFilename ⟨2025, 10, 12, 9, 30, 2⟩ "report.pdf") ↔
      (DateTime.mk 2025 10 12 9 30 0 = DateTime.mk 2025 10 12 9 30 2) :=
  upload_filename_collides_iff_same_second ⟨2025, 10, 12, 9, 30, 0⟩
    ⟨2025, 10, 12, 9, 30, 2⟩ "report.pdf" (by decide) (by decide)

/-- C6: a successful upload of bytes `content` with declared type `T` (with
the spec-modelled ingestion result, whose keys are index metadata only)
yields a response whose `size` is `len(content)`, whose `type` is `T`, and
whose `path` names a file that afterwards holds exactly `content`. -/
theorem upload_roundtrip_size_type_content (sf : Bool) (content : List UInt8)
    (file : FileUpload) (t : DateTime) (fs : String → Option (List UInt8))
    (idx : String) (cc : Nat) :
    (upload_file sf ⟨.ok content, .ok (), fun _ => .ok (specIngestionResult idx cc)⟩
        file t fs).response =
      .json 200 (pyMerge (fileInfoOf file t content) (specIngestionResult idx cc)) ∧
    pyLookup (pyMerge (fileInfoOf file t content) (specIngestionResult idx cc))
        "size" = some (.int content.length) ∧
    pyLookup (pyMerge (fileInfoOf file t content) (specIngestionResult idx cc))
        "type" = some (.str file.content_type) ∧
    pyLookup (pyMerge (fileInfoOf file t content) (specIngestionResult idx cc))
        "path" = some (.str (uploadPath t file.original_name)) ∧
    (upload_file sf ⟨.ok content, .ok (), fun _ => .ok (specIngestionResult idx cc)⟩
        file t fs).fs (uploadPath t file.original_name) = some content := by
  refine ⟨rfl, ?_, ?_, ?_, ?_⟩
  · rw [pyLookup_pyMerge_of_none (by simp [specIngestionResult, pyLookup])]
    simp [fileInfoOf, pyLookup]
  · rw [pyLookup_pyMerge_of_none (by simp [specIngestionResult, pyLookup])]
    simp [fileInfoOf, pyLookup]
  · rw [pyLookup_pyMerge_of_none (by simp [specIngestionResult, pyLookup])]
    simp [fileInfoOf, pyLookup]
  · show (if uploadPath t file.original_name =
        "uploads/" ++ uploadFilename t file.original_name then some content
      else fs (uploadPath t file.original_name)) = some content
    simp [uploadPath]

/-- C7: if backend construction for `/chat` or `/reason` fails, the route
returns the single non-streamed HTTP 500 response carrying the error
message, the construction side effect is the only thing attempted, and no
SSE stream is started. -/
theorem construction_failure_yields_500_without_stream (sf : Bool)
    (e : String) (messages : List Message) :
    chat_endpoint sf (.error e) messages = ⟨false, .httpError 500 e⟩ ∧
    reason_endpoint sf (.error e) messages = ⟨false, .httpError 500 e⟩ ∧
    ∀ s : TokenStream, (ChatResponse.httpError 500 e) ≠ .stream s :=
  ⟨rfl, rfl, fun _ h => ChatResponse.noConfusion h⟩

/-- C8: with a non-empty message sequence whose first message binds
`"content"`, the `/search` route passes exactly that content to the search
backend, and the messages after the first do not influence the outcome. -/
theorem search_query_is_first_message_content (svc : String → TokenStream)
    (m : Message) (rest rest' : List Message) (q : String)
    (h : msgLookup m "content" = some q) :
    search_endpoint (.ok svc) (m :: rest) = ⟨true, .stream (svc q)⟩ ∧
    search_endpoint (.ok svc) (m :: rest) = search_endpoint (.ok svc) (m :: rest') := by
  constructor
  · simp [search_endpoint, h]
  · rfl

/-- Witness for C8 at a concrete request. -/
theorem search_query_is_first_message_content_witness :
    search_endpoint (.ok fun q => ⟨[q], .done⟩)
        [[("role", "user"), ("content", "hello")]] =
      ⟨true, .stream ⟨["hello"], .done⟩⟩ ∧
    search_endpoint (.ok fun q => ⟨[q], .done⟩)
        [[("role", "user"), ("content", "hello")]] =
      search_endpoint (.ok fun q => ⟨[q], .done⟩)
        [[("role", "user"), ("content", "hello")], [("content", "ignored")]] :=
  search_query_is_first_message_content (fun q => ⟨[q], .done⟩)
    [("role", "user"), ("content", "hello")] [] [[("content", "ignored")]]
    "hello" rfl

/-- C9: with the spec-modelled fire-and-forget logging sink (failures are
swallowed inside `log_structured`), a failure of the sink's internal write
changes neither the response of the chat-like routes nor the outcome of the
upload route — in particular it never masks or replaces a primary error. -/
theorem logging_sink_failure_never_changes_outcome
    (factory : Except String (List Message → TokenStream))
    (messages : List Message) (env : UploadEnv) (file : FileUpload)
    (t : DateTime) (fs : String → Option (List UInt8)) :
    chat_endpoint true factory messages = chat_endpoint false factory messages ∧
    reason_endpoint true factory messages = reason_endpoint false factory messages ∧
    upload_file true env file t fs = upload_file false env file t fs :=
  ⟨rfl, rfl, rfl⟩

/-- C10: every execution of the upload route returns a JSON body (the merged
dict or the error dict) with status 200; the trailing
`return f"data: {result}\n\n"` after the `try`/`except` block is unreachable
— no outcome ever equals what it would produce. -/
theorem upload_route_always_returns_json (sf : Bool) (env : UploadEnv)
    (file : FileUpload) (t : DateTime) (fs : String → Option (List UInt8)) :
    (∃ d : Dict, (upload_file sf env file t fs).response = .json 200 d) ∧
    ∀ r : Dict, (upload_file sf env file t fs).response ≠ uploadTrailingReturn r := by
  obtain ⟨rd, wr, rg⟩ := env
  have hj : ∃ d : Dict,
      (upload_file sf ⟨rd, wr, rg⟩ file t fs).response = .json 200 d := by
    cases rd with
    | error e => exact ⟨_, rfl⟩
    | ok content =>
      cases wr with
      | error e => exact ⟨_, rfl⟩
      | ok u =>
        cases u
        cases hrg : rg (fileInfoOf file t content) with
        | error e => exact ⟨[("error", .str e)], by simp [upload_file, hrg]⟩
        | ok d =>
          exact ⟨pyMerge (fileInfoOf file t content) d, by simp [upload_file, hrg]⟩
  refine ⟨hj, ?_⟩
  obtain ⟨d, hd⟩ := hj
  intro r h
  rw [hd] at h
  simp [uploadTrailingReturn] at h

end AssistGen
